import Mathlib

/-!
Shallow embedding of the IBBS-UG booking backend core:
seat-lock manager (`app/services/seat_lock.py`), booking transaction
coordinator (`app/modules/bookings/router.py`), and payment webhook
reconciler (`app/modules/payments/router.py` with
`app/services/payment_gateway.py`).

The Lease Store (Redis, `app.redis_client`) is an external collaborator;
it is embedded with the standard semantics of the operations the source
invokes: SET key value EX ttl NX (atomic create-if-absent with expiry),
DEL, EXISTS, and the Lua compare-and-delete script `_CAS_DEL_SCRIPT`.
Opaque uuid4 tokens are embedded as naturals drawn from a fresh counter.
Machine time does not advance inside an operation, so the store carries a
constant clock `now`; a lock entry is live when `now < expires_at`.
-/

namespace IBBS

/-- One Redis seat-lock entry: key `seat_lock:{trip_id}:{seat_id}` holding
the opaque token, with an absolute expiry instant. -/
structure LockEntry where
  trip_id : Nat
  seat_id : Nat
  token : Nat
  expires_at : Nat
deriving DecidableEq, Repr

/-- The Redis state used by the core: seat-lock keys, webhook idempotency
markers `payment_webhook:{provider}:{event_id}`, the uuid4 source, and the
current clock instant. -/
structure Redis where
  locks : List LockEntry
  markers : List (String × String)
  next_token : Nat
  now : Nat
deriving DecidableEq, Repr

/-- Value of the live key `seat_lock:{trip_id}:{seat_id}`, if any:
an entry whose expiry has not passed. -/
def getLiveLock (r : Redis) (trip_id seat_id : Nat) : Option Nat :=
  (r.locks.find? fun e =>
    e.trip_id == trip_id && e.seat_id == seat_id && r.now < e.expires_at).map
    (fun e => e.token)

/-- Remove every entry (live or expired) stored under the key
`seat_lock:{trip_id}:{seat_id}` (Redis DEL / overwrite). -/
def delLockKey (locks : List LockEntry) (trip_id seat_id : Nat) : List LockEntry :=
  locks.filter fun e => !(e.trip_id == trip_id && e.seat_id == seat_id)

/-- `lock_seat` (seat_lock.py): SET key token EX ttl NX. Returns
`(token, expires_at)` on success, `none` when the seat is already locked. -/
def lock_seat (trip_id seat_id : Nat) (ttl : Nat) (r : Redis) :
    Option (Nat × Nat) × Redis :=
  match getLiveLock r trip_id seat_id with
  | some _ => (none, r)
  | none =>
      let tok := r.next_token
      let e : LockEntry :=
        { trip_id := trip_id, seat_id := seat_id, token := tok
          expires_at := r.now + ttl }
      (some (tok, r.now + ttl),
       { r with locks := e :: delLockKey r.locks trip_id seat_id
                next_token := r.next_token + 1 })

/-- `validate_and_consume_lock` (seat_lock.py): the Lua compare-and-delete
script, one atomic step. True and key deleted iff the stored token equals
the supplied one; otherwise false with the store untouched. -/
def validate_and_consume_lock (trip_id seat_id tok : Nat) (r : Redis) :
    Bool × Redis :=
  match getLiveLock r trip_id seat_id with
  | some stored =>
      if stored == tok then
        (true, { r with locks := delLockKey r.locks trip_id seat_id })
      else (false, r)
  | none => (false, r)

/-- `release_lock` (seat_lock.py): with a token, the same compare-and-delete
as consumption; with no token, an unconditional administrative DEL that
always reports success. -/
def release_lock (trip_id seat_id : Nat) (tok : Option Nat) (r : Redis) :
    Bool × Redis :=
  match tok with
  | none => (true, { r with locks := delLockKey r.locks trip_id seat_id })
  | some t => validate_and_consume_lock trip_id seat_id t r

/-! ## Reservation Ledger (models.py) -/

/-- A `trips` row, restricted to the columns the core touches. -/
structure Trip where
  id : Nat
  seats_available : Int
deriving DecidableEq, Repr

/-- A `bookings` row. The table carries
`UniqueConstraint("trip_id", "seat_id", name="uq_trip_seat")`, covering
rows of every status; the insert path below raises on violation. -/
structure Booking where
  id : Nat
  user_id : Nat
  trip_id : Nat
  seat_id : Nat
  status : String
deriving DecidableEq, Repr

/-- A `payments` row, restricted to the columns the reconciler touches.
`booking_id` is the matched booking (nullable until matched),
`provider_ref` the unique external reference. -/
structure Payment where
  id : Nat
  booking_id : Option Nat
  provider : String
  provider_ref : Option String
  status : String
  amount : Int
deriving DecidableEq, Repr

/-- The relational state, plus the primary-key sequences. -/
structure Db where
  trips : List Trip
  bookings : List Booking
  payments : List Payment
  next_booking_id : Nat
  next_payment_id : Nat
deriving DecidableEq, Repr

/-- Combined system state: Ledger plus Lease Store. -/
structure St where
  db : Db
  redis : Redis
deriving DecidableEq, Repr

/-! ## Booking Transaction Coordinator (modules/bookings/router.py) -/

/-- Outcomes of `confirm_booking`: the created booking id, or the three
HTTP 409 rejections the endpoint raises. -/
inductive ConfirmResult where
  /-- 200, `BookingResponse` with the new booking id. -/
  | booked (booking_id : Nat)
  /-- 409 "Invalid or expired lock token". -/
  | errInvalidLock
  /-- 409 "No seats available". -/
  | errNoSeats
  /-- 409 "Seat already booked" (IntegrityError on `uq_trip_seat`). -/
  | errSeatBooked
deriving DecidableEq, Repr

/-- The conditioned UPDATE of `confirm_booking`:
`UPDATE trips SET seats_available = seats_available - 1
 WHERE id = trip_id AND seats_available > 0`.
Returns the updated table and the affected row count. -/
def decrementSeats (trips : List Trip) (trip_id : Nat) : List Trip × Nat :=
  (trips.map fun t =>
     if t.id == trip_id && 0 < t.seats_available then
       { t with seats_available := t.seats_available - 1 }
     else t,
   trips.countP fun t => t.id == trip_id && 0 < t.seats_available)

/-- Whether inserting a booking for `(trip_id, seat_id)` violates
`uq_trip_seat`: some row (of any status — cancelled included) already
occupies the pair. -/
def seatTaken (bookings : List Booking) (trip_id seat_id : Nat) : Bool :=
  bookings.any fun b => b.trip_id == trip_id && b.seat_id == seat_id

/-- The single atomic Ledger transaction inside `confirm_booking`
(`async with db.begin()` block): conditioned decrement, then the insert of
the status-`confirmed` booking row. Zero-row decrement aborts with
"No seats available"; a `uq_trip_seat` violation aborts the whole
transaction (decrement undone) with "Seat already booked". -/
def confirmTxn (trip_id seat_id user_id : Nat) (db : Db) : ConfirmResult × Db :=
  let dec := decrementSeats db.trips trip_id
  if dec.2 == 0 then (.errNoSeats, db)
  else if seatTaken db.bookings trip_id seat_id then (.errSeatBooked, db)
  else
    let b : Booking :=
      { id := db.next_booking_id, user_id := user_id, trip_id := trip_id
        seat_id := seat_id, status := "confirmed" }
    (.booked db.next_booking_id,
     { db with trips := dec.1, bookings := db.bookings ++ [b]
               next_booking_id := db.next_booking_id + 1 })

/-- `confirm_booking` (modules/bookings/router.py): atomically consume the
lease token, then run the booking transaction. The lease consumption
precedes — and is not undone by — a failed transaction. -/
def confirm_booking (trip_id seat_id : Nat) (tok : Nat) (user_id : Nat)
    (s : St) : ConfirmResult × St :=
  let c := validate_and_consume_lock trip_id seat_id tok s.redis
  if !c.1 then (.errInvalidLock, { s with redis := c.2 })
  else
    let t := confirmTxn trip_id seat_id user_id s.db
    (t.1, { db := t.2, redis := c.2 })

/-! ## Payment Webhook Reconciler (modules/payments/router.py,
services/payment_gateway.py) -/

/-- The nested `payload["data"]` object, restricted to the fields the
handler reads. An absent field is `none`. -/
structure WData where
  id : Option String := none
  tx_ref : Option String := none
  flw_ref : Option String := none
  status : Option String := none
  transaction_id : Option String := none
  transaction_status : Option String := none
  amount : Option Int := none
deriving DecidableEq, Repr

/-- The parsed JSON webhook body, restricted to the fields the handler
reads (top level and the nested `data` object). -/
structure Payload where
  id : Option String := none
  event_id : Option String := none
  tx_id : Option String := none
  transaction_id : Option String := none
  tx_ref : Option String := none
  status : Option String := none
  transaction_status : Option String := none
  amount : Option Int := none
  data : Option WData := none
deriving DecidableEq, Repr

/-- An inbound webhook delivery: the URL path provider, whether the
adapter signature check over the raw body passes, and the parsed body. -/
structure WebhookReq where
  provider : String
  sig_valid : Bool
  payload : Payload
deriving DecidableEq, Repr

/-- Outcomes of `payment_webhook`. -/
inductive WebhookResult where
  /-- 200 `WebhookAck(received=True)`. -/
  | ack
  /-- `PaymentError` from `get_adapter` for an unregistered provider. -/
  | errUnknownProvider
  /-- 400 "Invalid signature". -/
  | errBadSignature
  /-- 400 "Missing event id for idempotency". -/
  | errMissingEventId
  /-- 500: the `db.begin()` block raised; the transaction was rolled back. -/
  | err500 (msg : String)
deriving DecidableEq, Repr

/-- Python `str.lower()` over the ASCII strings these payloads carry,
written with a structurally reducing recursion. -/
def pyLower (s : String) : String := String.mk (s.data.map Char.toLower)

/-- The providers registered in `ADAPTERS` (payment_gateway.py);
`get_adapter` lowercases the name and raises for any other. -/
def knownProvider (name : String) : Bool :=
  ["flutterwave", "mtn", "airtel"].contains (pyLower name)

/-- `is_event_processed` (payment_gateway.py): EXISTS on the
idempotency key. -/
def is_event_processed (provider event_id : String) (r : Redis) : Bool :=
  r.markers.contains (provider, event_id)

/-- `mark_event_processed` (payment_gateway.py): SET key "1" EX ttl NX —
the atomic test-and-set of the idempotency marker. -/
def mark_event_processed (provider event_id : String) (r : Redis) :
    Bool × Redis :=
  if r.markers.contains (provider, event_id) then (false, r)
  else (true, { r with markers := (provider, event_id) :: r.markers })

/-- Event-id extraction of `payment_webhook`: the top-level `id`,
`event_id`, `tx_id`, `transaction_id` fields in order, then the
`data.id` / `data.tx_ref` fallback. -/
def extract_event_id (p : Payload) : Option String :=
  match p.id <|> p.event_id <|> p.tx_id <|> p.transaction_id with
  | some e => some e
  | none =>
      match p.data with
      | some d => d.id <|> d.tx_ref
      | none => none

/-- The inline provider-specific normalization of `payment_webhook`:
`(status_str, provider_ref, amount)`. Flutterwave reads the nested `data`
object; every other provider reads `payload.get("data") or payload`. -/
def normalizeEvent (provider : String) (p : Payload) :
    Option String × Option String × Option Int :=
  if pyLower provider == "flutterwave" then
    match p.data with
    | some d => (d.status, d.tx_ref <|> d.flw_ref, d.amount)
    | none => (none, none, none)
  else
    match p.data with
    | some d => (d.status <|> d.transaction_status,
                 d.transaction_id <|> d.tx_ref, d.amount)
    | none => (p.status <|> p.transaction_status,
               p.transaction_id <|> p.tx_ref, p.amount)

/-- SQL `payments.provider_ref = ref` comparison: a NULL on either side
matches nothing. -/
def refMatches (stored ref : Option String) : Bool :=
  match stored, ref with
  | some a, some b => a == b
  | _, _ => false

/-- `SELECT * FROM bookings WHERE id = booking_id` (first row). -/
def findBooking (db : Db) (booking_id : Nat) : Option Booking :=
  db.bookings.find? fun b => b.id == booking_id

/-- Set the status of the booking row with the given id. -/
def setBookingStatus (db : Db) (booking_id : Nat) (st : String) : Db :=
  { db with bookings := db.bookings.map fun b =>
      if b.id == booking_id then { b with status := st } else b }

/-- Set the status of the payment row with the given id. -/
def setPaymentStatus (db : Db) (payment_id : Nat) (st : String) : Db :=
  { db with payments := db.payments.map fun p =>
      if p.id == payment_id then { p with status := st } else p }

/-- The statuses `payment_webhook` treats as success. -/
def successStatuses : List String := ["successful", "success", "paid", "completed"]

/-- The statuses `payment_webhook` treats as failure. -/
def failedStatuses : List String :=
  ["failed", "failed_attempt", "error", "declined", "cancelled"]

/-- The `db.begin()` transaction inside `payment_webhook`, embedded
faithfully. Locate-or-create the payment by `provider_ref`, update its
status, then branch on the lowercased status. The failed branch, once it
has located a booking with a truthy `trip_id`, evaluates the name
`sa_update` — which `modules/payments/router.py` never imports — so that
branch raises `NameError` and the whole transaction rolls back (the
`.error` result). On success the transaction yields the new `Db` plus the
best-effort lease release performed inside the block, as
`some (trip_id, seat_id)`. -/
def payment_txn (provider : String) (status_str provider_ref : Option String)
    (amount : Option Int) (db : Db) :
    Except String (Db × Option (Nat × Nat)) :=
  let payOpt := db.payments.find? fun p => refMatches p.provider_ref provider_ref
  let located :=
    match payOpt with
    | none =>
        let pay : Payment :=
          { id := db.next_payment_id, booking_id := none, provider := provider
            provider_ref := provider_ref, status := status_str.getD "unknown"
            amount := amount.getD 0 }
        (pay, { db with payments := db.payments ++ [pay]
                        next_payment_id := db.next_payment_id + 1 })
    | some pay =>
        ({ pay with status := status_str.getD pay.status },
         setPaymentStatus db pay.id (status_str.getD pay.status))
  let pay := located.1
  let db1 := located.2
  let lcstatus := pyLower (status_str.getD "")
  if successStatuses.contains lcstatus then
    match pay.booking_id with
    | some bid =>
        match findBooking db1 bid with
        | some b => .ok (setBookingStatus db1 b.id "paid", none)
        | none => .ok (db1, none)
    | none => .ok (db1, none)
  else if failedStatuses.contains lcstatus then
    match pay.booking_id with
    | some bid =>
        match findBooking db1 bid with
        | some b =>
            if b.trip_id != 0 then
              .error "NameError: name sa_update is not defined"
            else
              .ok (setBookingStatus db1 b.id "cancelled",
                   some (b.trip_id, b.seat_id))
        | none => .ok (db1, none)
    | none => .ok (db1, none)
  else .ok (db1, none)

/-- `payment_webhook` (modules/payments/router.py), parameterized by the
transaction body: adapter lookup, signature check, event-id extraction,
replay check, normalization, atomic marker test-and-set, then the Ledger
transaction. A raising transaction is rolled back and surfaced as 500,
with the idempotency marker deliberately kept (the source keeps the key
"to avoid replayers causing repeated DB errors"). -/
def payment_webhook_with
    (txn : String → Option String → Option String → Option Int → Db →
      Except String (Db × Option (Nat × Nat)))
    (req : WebhookReq) (s : St) : WebhookResult × St :=
  if !knownProvider req.provider then (.errUnknownProvider, s)
  else if !req.sig_valid then (.errBadSignature, s)
  else
    match extract_event_id req.payload with
    | none => (.errMissingEventId, s)
    | some event_id =>
        if is_event_processed req.provider event_id s.redis then (.ack, s)
        else
          let norm := normalizeEvent req.provider req.payload
          let mk := mark_event_processed req.provider event_id s.redis
          if !mk.1 then (.ack, { s with redis := mk.2 })
          else
            match txn req.provider norm.1 norm.2.1 norm.2.2 s.db with
            | .ok (db1, rel) =>
                let r2 :=
                  match rel with
                  | some pr => (release_lock pr.1 pr.2 none mk.2).2
                  | none => mk.2
                (.ack, { db := db1, redis := r2 })
            | .error msg => (.err500 msg, { s with redis := mk.2 })

/-- The webhook handler as shipped. -/
def payment_webhook (req : WebhookReq) (s : St) : WebhookResult × St :=
  payment_webhook_with payment_txn req s

/-- The transaction body as the source intends it (`sa_update` imported):
the failed branch marks the booking cancelled and runs the unconditioned
`UPDATE trips SET seats_available = seats_available + 1 WHERE id =
booking.trip_id` — with no guard on the booking's current status — then
best-effort releases the lease. Used to exhibit the behaviour the crash
currently masks. -/
def payment_txn_fixed (provider : String)
    (status_str provider_ref : Option String) (amount : Option Int)
    (db : Db) : Except String (Db × Option (Nat × Nat)) :=
  let payOpt := db.payments.find? fun p => refMatches p.provider_ref provider_ref
  let located :=
    match payOpt with
    | none =>
        let pay : Payment :=
          { id := db.next_payment_id, booking_id := none, provider := provider
            provider_ref := provider_ref, status := status_str.getD "unknown"
            amount := amount.getD 0 }
        (pay, { db with payments := db.payments ++ [pay]
                        next_payment_id := db.next_payment_id + 1 })
    | some pay =>
        ({ pay with status := status_str.getD pay.status },
         setPaymentStatus db pay.id (status_str.getD pay.status))
  let pay := located.1
  let db1 := located.2
  let lcstatus := pyLower (status_str.getD "")
  if successStatuses.contains lcstatus then
    match pay.booking_id with
    | some bid =>
        match findBooking db1 bid with
        | some b => .ok (setBookingStatus db1 b.id "paid", none)
        | none => .ok (db1, none)
    | none => .ok (db1, none)
  else if failedStatuses.contains lcstatus then
    match pay.booking_id with
    | some bid =>
        match findBooking db1 bid with
        | some b =>
            let db2 := setBookingStatus db1 b.id "cancelled"
            let db3 :=
              if b.trip_id != 0 then
                { db2 with trips := db2.trips.map fun t =>
                    if t.id == b.trip_id then
                      { t with seats_available := t.seats_available + 1 }
                    else t }
              else db2
            .ok (db3, some (b.trip_id, b.seat_id))
        | none => .ok (db1, none)
    | none => .ok (db1, none)
  else .ok (db1, none)

/-- The webhook handler with the missing import supplied. -/
def payment_webhook_fixed (req : WebhookReq) (s : St) : WebhookResult × St :=
  payment_webhook_with payment_txn_fixed req s

/-! ## Lease-store invariants and lemmas -/

/-- At most one live lease per (trip, seat) at any instant. -/
def atMostOneLive (r : Redis) : Prop :=
  ∀ e1 e2, e1 ∈ r.locks → e2 ∈ r.locks →
    e1.trip_id = e2.trip_id → e1.seat_id = e2.seat_id →
    r.now < e1.expires_at → r.now < e2.expires_at → e1 = e2

/-- N concurrent `lock_seat` calls on one (trip, seat). Each call is a
single atomic SET-NX step of the Lease Store and the callers are
symmetric, so every concurrent schedule is this sequential composition. -/
def runAcquires (n : Nat) (trip_id seat_id ttl : Nat) (r : Redis) :
    List (Option (Nat × Nat)) × Redis :=
  match n with
  | 0 => ([], r)
  | k + 1 =>
      let step := lock_seat trip_id seat_id ttl r
      let rest := runAcquires k trip_id seat_id ttl step.2
      (step.1 :: rest.1, rest.2)

theorem find?_delLockKey (l : List LockEntry) (t s now : Nat) :
    (delLockKey l t s).find?
      (fun e => e.trip_id == t && e.seat_id == s && now < e.expires_at) = none := by
  unfold delLockKey
  induction l with
  | nil => rfl
  | cons e tl ih =>
      rw [List.filter_cons]
      cases h : (e.trip_id == t && e.seat_id == s) with
      | true => simpa using ih
      | false =>
          have hpred :
              (e.trip_id == t && (e.seat_id == s && decide (now < e.expires_at))) = false := by
            rw [← Bool.and_assoc, h, Bool.false_and]
          simp only [Bool.not_false, if_true]
          rw [List.find?_cons_of_neg _ (by simpa using hpred)]
          exact ih

theorem getLiveLock_eq_none_of_del (r2 : Redis) (l : List LockEntry) (t s : Nat)
    (h : r2.locks = delLockKey l t s) : getLiveLock r2 t s = none := by
  unfold getLiveLock
  rw [h, find?_delLockKey]
  rfl

theorem getLiveLock_after_acquire (r : Redis) (t s ttl : Nat) (httl : 0 < ttl)
    (hfree : getLiveLock r t s = none) :
    getLiveLock (lock_seat t s ttl r).2 t s = some r.next_token := by
  unfold lock_seat
  rw [hfree]
  simp [getLiveLock, Nat.lt_add_of_pos_right httl]

/-- Once the key is held, further acquires fail and leave the store
unchanged. -/
theorem runAcquires_locked (k : Nat) (t s ttl : Nat) (r : Redis)
    (h : (getLiveLock r t s).isSome = true) :
    runAcquires k t s ttl r = (List.replicate k none, r) := by
  induction k with
  | zero => rfl
  | succ k ih =>
      unfold runAcquires
      cases hfind : getLiveLock r t s with
      | none => rw [hfind] at h; simp at h
      | some tok => simp [lock_seat, hfind, ih, List.replicate_succ]

theorem consume_hit (r : Redis) (trip_id seat_id tok : Nat)
    (h : getLiveLock r trip_id seat_id = some tok) :
    validate_and_consume_lock trip_id seat_id tok r =
      (true, { r with locks := delLockKey r.locks trip_id seat_id }) := by
  unfold validate_and_consume_lock
  rw [h]
  simp

theorem consume_miss (r : Redis) (trip_id seat_id tok : Nat)
    (h : getLiveLock r trip_id seat_id ≠ some tok) :
    validate_and_consume_lock trip_id seat_id tok r = (false, r) := by
  unfold validate_and_consume_lock
  cases hfind : getLiveLock r trip_id seat_id with
  | none => rfl
  | some stored =>
      have hne : (stored == tok) = false := by
        rw [hfind] at h
        simpa using fun e => h (by rw [e])
      simp [hne]

theorem consume_consumed (r : Redis) (trip_id seat_id tok : Nat) (r2 : Redis)
    (h2 : validate_and_consume_lock trip_id seat_id tok r = (true, r2)) :
    getLiveLock r2 trip_id seat_id = none := by
  unfold validate_and_consume_lock at h2
  cases hfind : getLiveLock r trip_id seat_id with
  | none => rw [hfind] at h2; simp at h2
  | some stored =>
      rw [hfind] at h2
      by_cases hb : (stored == tok) = true
      · simp only [hb, if_true] at h2
        injection h2 with hfst hr2
        exact getLiveLock_eq_none_of_del r2 r.locks trip_id seat_id
          (by rw [← hr2])
      · rw [Bool.not_eq_true] at hb
        simp [hb] at h2

/-! ## Claim C8: compare-and-delete consumption -/

/-- C8: for every (trip, seat) and token, `consume` atomically compares
the stored lease value with the token and deletes the key only on a
match; if the key is absent or holds a different token it returns Invalid
and leaves the store — including a differently-tokened live lease —
untouched. -/
theorem consume_compare_and_delete (r : Redis) (trip_id seat_id tok : Nat) :
    (getLiveLock r trip_id seat_id = some tok →
       validate_and_consume_lock trip_id seat_id tok r =
         (true, { r with locks := delLockKey r.locks trip_id seat_id })) ∧
    (getLiveLock r trip_id seat_id ≠ some tok →
       validate_and_consume_lock trip_id seat_id tok r = (false, r)) ∧
    (∀ r2, validate_and_consume_lock trip_id seat_id tok r = (true, r2) →
       getLiveLock r2 trip_id seat_id = none) :=
  ⟨consume_hit r trip_id seat_id tok,
   consume_miss r trip_id seat_id tok,
   fun r2 => consume_consumed r trip_id seat_id tok r2⟩

/-- Fixture: the key (1, 1) holds a live lease with token 5. -/
def cadFixture : Redis :=
  { locks := [{ trip_id := 1, seat_id := 1, token := 5, expires_at := 100 }],
    markers := [], next_token := 6, now := 0 }

theorem consume_compare_and_delete_witness :
    validate_and_consume_lock 1 1 7 cadFixture = (false, cadFixture) ∧
    (validate_and_consume_lock 1 1 5 cadFixture).1 = true :=
  ⟨(consume_compare_and_delete cadFixture 1 1 7).2.1 (by decide),
   by rw [(consume_compare_and_delete cadFixture 1 1 5).1 (by decide)]⟩

/-! ## Claim C9: mutually exclusive lease acquisition -/

/-- C9: among N concurrent `acquire` calls for the same free (trip, seat),
exactly one returns a lease — a fresh token and absolute expiry — while
the other N − 1 receive Conflict; and the atomic create preserves the
at-most-one-live-lease invariant. -/
theorem acquire_mutual_exclusion (r : Redis) (trip_id seat_id ttl n : Nat)
    (hfree : getLiveLock r trip_id seat_id = none) (httl : 0 < ttl)
    (hn : 0 < n) :
    (runAcquires n trip_id seat_id ttl r).1 =
        some (r.next_token, r.now + ttl) :: List.replicate (n - 1) none ∧
    (∀ r2 t2 s2 ttl2, atMostOneLive r2 →
       atMostOneLive (lock_seat t2 s2 ttl2 r2).2) := by
  constructor
  · cases n with
    | zero => exact absurd hn (by simp)
    | succ m =>
        unfold runAcquires
        have hlocked :
            (getLiveLock (lock_seat trip_id seat_id ttl r).2 trip_id seat_id).isSome
              = true := by
          rw [getLiveLock_after_acquire r trip_id seat_id ttl httl hfree]; rfl
        simp only [runAcquires_locked m trip_id seat_id ttl _ hlocked]
        have hfst : (lock_seat trip_id seat_id ttl r).1 =
            some (r.next_token, r.now + ttl) := by
          unfold lock_seat; rw [hfree]
        rw [hfst]
        simp
  · intro r2 t2 s2 ttl2 hinv
    unfold lock_seat
    cases hfind : getLiveLock r2 t2 s2 with
    | some tok => exact hinv
    | none =>
        intro e1 e2 h1 h2 ht hs hl1 hl2
        simp only [List.mem_cons] at h1 h2
        rcases h1 with h1 | h1 <;> rcases h2 with h2 | h2
        · rw [h1, h2]
        · exfalso
          have hmem := List.mem_filter.mp h2
          have : e2.trip_id = t2 := by rw [← ht, h1]
          have hseat : e2.seat_id = s2 := by rw [← hs, h1]
          simp [this, hseat] at hmem
        · exfalso
          have hmem := List.mem_filter.mp h1
          have : e1.trip_id = t2 := by rw [ht, h2]
          have hseat : e1.seat_id = s2 := by rw [hs, h2]
          simp [this, hseat] at hmem
        · exact hinv e1 e2 (List.mem_of_mem_filter h1)
            (List.mem_of_mem_filter h2) ht hs hl1 hl2

/-- Fixture: an empty lease store. -/
def acqFixture : Redis :=
  { locks := [], markers := [], next_token := 100, now := 0 }

theorem acquire_mutual_exclusion_witness :
    (runAcquires 3 1 1 60 acqFixture).1 =
      some (acqFixture.next_token, acqFixture.now + 60) ::
        List.replicate 2 none :=
  (acquire_mutual_exclusion acqFixture 1 1 60 3 (by decide) (by decide)
    (by decide)).1

/-! ## Ledger lemmas -/

theorem confirmTxn_nonneg (trip_id seat_id user_id : Nat) (db : Db)
    (h : ∀ t ∈ db.trips, 0 ≤ t.seats_available) :
    ∀ t ∈ (confirmTxn trip_id seat_id user_id db).2.trips,
      0 ≤ t.seats_available := by
  simp only [confirmTxn]
  split
  · exact h
  · split
    · exact h
    · intro t ht
      simp only [decrementSeats, List.mem_map] at ht
      obtain ⟨t0, ht0, rfl⟩ := ht
      split
      · next hcond =>
          have hand := (Bool.and_eq_true _ _).mp hcond
          have hpos : 0 < t0.seats_available := of_decide_eq_true hand.2
          simp only
          omega
      · exact h t0 ht0

/-- The faithful webhook transaction never touches the `trips` table:
the only path that would (the compensating increment) raises before
executing. -/
theorem payment_txn_trips (provider : String)
    (status_str provider_ref : Option String) (amount : Option Int)
    (db db1 : Db) (rel : Option (Nat × Nat))
    (h : payment_txn provider status_str provider_ref amount db =
      .ok (db1, rel)) : db1.trips = db.trips := by
  cases hfind : db.payments.find? (fun p => refMatches p.provider_ref provider_ref) with
  | none =>
      simp only [payment_txn, hfind] at h
      repeat' split at h
      all_goals
        injection h with h1
        injection h1 with h2 h3
        rw [← h2]
        try simp [setBookingStatus, setPaymentStatus]
  | some pay =>
      simp only [payment_txn, hfind] at h
      repeat' split at h
      all_goals try exact Except.noConfusion h
      all_goals
        injection h with h1
        injection h1 with h2 h3
        rw [← h2]
        try simp [setBookingStatus, setPaymentStatus]

/-- The shipped webhook handler never changes the `trips` table, on any
path: the compensating increment crashes before executing and every other
path leaves trips alone. -/
theorem payment_webhook_trips_eq (req : WebhookReq) (s : St) :
    ((payment_webhook req s).2).db.trips = s.db.trips := by
  simp only [payment_webhook, payment_webhook_with]
  split
  · rfl
  · split
    · rfl
    · split
      · rfl
      · next event_id heq =>
          split
          · rfl
          · split
            · rfl
            · split
              · next db1 rel htxn =>
                  exact payment_txn_trips _ _ _ _ _ _ _ htxn
              · rfl

theorem confirmTxn_noSeats (trip_id seat_id user_id : Nat) (db : Db)
    (h : (decrementSeats db.trips trip_id).2 = 0) :
    confirmTxn trip_id seat_id user_id db = (.errNoSeats, db) := by
  simp only [confirmTxn, h]
  simp

theorem confirmTxn_seatBooked (trip_id seat_id user_id : Nat) (db : Db)
    (hcap : (decrementSeats db.trips trip_id).2 ≠ 0)
    (htaken : seatTaken db.bookings trip_id seat_id = true) :
    confirmTxn trip_id seat_id user_id db = (.errSeatBooked, db) := by
  have hne : ((decrementSeats db.trips trip_id).2 == 0) = false := by
    simpa using hcap
  simp only [confirmTxn, hne, htaken]
  simp

theorem confirmTxn_success (trip_id seat_id user_id : Nat) (db : Db)
    (hcap : (decrementSeats db.trips trip_id).2 ≠ 0)
    (htaken : seatTaken db.bookings trip_id seat_id = false) :
    confirmTxn trip_id seat_id user_id db =
      (.booked db.next_booking_id,
       { db with
           trips := (decrementSeats db.trips trip_id).1
           bookings := db.bookings ++
             [{ id := db.next_booking_id, user_id := user_id
                trip_id := trip_id, seat_id := seat_id
                status := "confirmed" }]
           next_booking_id := db.next_booking_id + 1 }) := by
  have hne : ((decrementSeats db.trips trip_id).2 == 0) = false := by
    simpa using hcap
  simp only [confirmTxn, hne, htaken]
  simp

theorem confirmTxn_fail_keeps_db (trip_id seat_id user_id : Nat) (db : Db)
    (h : ∀ bid, (confirmTxn trip_id seat_id user_id db).1 ≠ .booked bid) :
    (confirmTxn trip_id seat_id user_id db).2 = db := by
  by_cases hcap : (decrementSeats db.trips trip_id).2 = 0
  · rw [confirmTxn_noSeats trip_id seat_id user_id db hcap]
  · cases htaken : seatTaken db.bookings trip_id seat_id with
    | true => rw [confirmTxn_seatBooked trip_id seat_id user_id db hcap htaken]
    | false =>
        exfalso
        apply h db.next_booking_id
        rw [confirmTxn_success trip_id seat_id user_id db hcap htaken]

/-- When the supplied token matches the live lease, `confirm_booking`
consumes the lease and commits the result of the booking transaction. -/
theorem confirm_booking_consumed (s : St) (trip_id seat_id tok user_id : Nat)
    (h : getLiveLock s.redis trip_id seat_id = some tok) :
    confirm_booking trip_id seat_id tok user_id s =
      ((confirmTxn trip_id seat_id user_id s.db).1,
       { db := (confirmTxn trip_id seat_id user_id s.db).2
         redis := { s.redis with
                      locks := delLockKey s.redis.locks trip_id seat_id } }) := by
  simp only [confirm_booking, consume_hit s.redis trip_id seat_id tok h]
  simp

/-- When the supplied token does not match, `confirm_booking` rejects with
the lock error and changes nothing. -/
theorem confirm_booking_badlock (s : St) (trip_id seat_id tok user_id : Nat)
    (h : getLiveLock s.redis trip_id seat_id ≠ some tok) :
    confirm_booking trip_id seat_id tok user_id s = (.errInvalidLock, s) := by
  simp only [confirm_booking, consume_miss s.redis trip_id seat_id tok h]
  simp

/-! ## Claim C7: seats_available never negative -/

/-- C7: `seats_available` never goes negative — `confirm` mutates it only
through the conditioned decrement requiring `seats_available > 0`, and when
that conditional decrement affects zero rows the transaction aborts with
the Ledger unchanged and `confirm` returns Conflict ("No seats available");
the shipped webhook handler never changes the trips table at all. -/
theorem seats_available_never_negative (s : St)
    (trip_id seat_id tok user_id : Nat) :
    ((∀ t ∈ s.db.trips, 0 ≤ t.seats_available) →
       ∀ t ∈ (confirm_booking trip_id seat_id tok user_id s).2.db.trips,
         0 ≤ t.seats_available) ∧
    (getLiveLock s.redis trip_id seat_id = some tok →
       (∀ t ∈ s.db.trips, t.id = trip_id → t.seats_available ≤ 0) →
       (confirm_booking trip_id seat_id tok user_id s).1 = .errNoSeats ∧
       (confirm_booking trip_id seat_id tok user_id s).2.db = s.db) ∧
    (∀ req s2, ((payment_webhook req s2).2).db.trips = s2.db.trips) := by
  refine ⟨?_, ?_, fun req s2 => payment_webhook_trips_eq req s2⟩
  · intro h
    by_cases hl : getLiveLock s.redis trip_id seat_id = some tok
    · rw [confirm_booking_consumed s trip_id seat_id tok user_id hl]
      exact confirmTxn_nonneg trip_id seat_id user_id s.db h
    · rw [confirm_booking_badlock s trip_id seat_id tok user_id hl]
      exact h
  · intro hl hexh
    have hcount : (decrementSeats s.db.trips trip_id).2 = 0 := by
      simp only [decrementSeats]
      rw [List.countP_eq_zero]
      intro t ht hpred
      have hand := (Bool.and_eq_true _ _).mp hpred
      have hid : t.id = trip_id := by simpa using hand.1
      have hpos : 0 < t.seats_available := of_decide_eq_true hand.2
      exact absurd hpos (not_lt.mpr (hexh t ht hid))
    rw [confirm_booking_consumed s trip_id seat_id tok user_id hl,
        confirmTxn_noSeats trip_id seat_id user_id s.db hcount]
    exact ⟨rfl, rfl⟩

/-- Fixture: a live lease on (1, 1) with token 5, and a trip with no
remaining capacity. -/
def noSeatsFixture : St :=
  { db := { trips := [{ id := 1, seats_available := 0 }], bookings := []
            payments := [], next_booking_id := 1, next_payment_id := 1 }
    redis := cadFixture }

theorem seats_available_never_negative_witness :
    (confirm_booking 1 1 5 9 noSeatsFixture).1 = .errNoSeats ∧
    (confirm_booking 1 1 5 9 noSeatsFixture).2.db = noSeatsFixture.db :=
  (seats_available_never_negative noSeatsFixture 1 1 5 9).2.1 (by decide)
    (by decide)

/-! ## Claim C6: atomicity of decrement plus insert, Conflict on
constraint violation -/

/-- C6: the capacity decrement and the booking insert form one atomic
transaction — a `uq_trip_seat` violation aborts the whole transaction
(the decrement is undone, the Ledger unchanged) and surfaces as Conflict
("Seat already booked"), while on success both writes commit together. -/
theorem confirm_decrement_insert_atomic (s : St)
    (trip_id seat_id tok user_id : Nat) :
    ((confirm_booking trip_id seat_id tok user_id s).1 = .errSeatBooked →
       (confirm_booking trip_id seat_id tok user_id s).2.db = s.db) ∧
    (getLiveLock s.redis trip_id seat_id = some tok →
       seatTaken s.db.bookings trip_id seat_id = true →
       (∃ t ∈ s.db.trips, t.id = trip_id ∧ 0 < t.seats_available) →
       (confirm_booking trip_id seat_id tok user_id s).1 = .errSeatBooked) ∧
    (∀ bid, (confirm_booking trip_id seat_id tok user_id s).1 = .booked bid →
       bid = s.db.next_booking_id ∧
       (confirm_booking trip_id seat_id tok user_id s).2.db =
         { s.db with
             trips := (decrementSeats s.db.trips trip_id).1
             bookings := s.db.bookings ++
               [{ id := s.db.next_booking_id, user_id := user_id
                  trip_id := trip_id, seat_id := seat_id
                  status := "confirmed" }]
             next_booking_id := s.db.next_booking_id + 1 }) := by
  refine ⟨?_, ?_, ?_⟩
  · intro hres
    by_cases hl : getLiveLock s.redis trip_id seat_id = some tok
    · rw [confirm_booking_consumed s trip_id seat_id tok user_id hl] at hres ⊢
      simp only at hres ⊢
      exact confirmTxn_fail_keeps_db trip_id seat_id user_id s.db
        (fun bid hb => by rw [hres] at hb; exact ConfirmResult.noConfusion hb)
    · rw [confirm_booking_badlock s trip_id seat_id tok user_id hl] at hres
      exact ConfirmResult.noConfusion hres
  · intro hl htaken hcap
    have hcount : (decrementSeats s.db.trips trip_id).2 ≠ 0 := by
      simp only [decrementSeats]
      have : 0 < s.db.trips.countP
          (fun t => t.id == trip_id && decide (0 < t.seats_available)) := by
        rw [List.countP_pos_iff]
        obtain ⟨t, ht, hid, hpos⟩ := hcap
        exact ⟨t, ht, by simp [hid, hpos]⟩
      omega
    rw [confirm_booking_consumed s trip_id seat_id tok user_id hl,
        confirmTxn_seatBooked trip_id seat_id user_id s.db hcount htaken]
  · intro bid hres
    by_cases hl : getLiveLock s.redis trip_id seat_id = some tok
    · rw [confirm_booking_consumed s trip_id seat_id tok user_id hl] at hres ⊢
      simp only at hres ⊢
      by_cases hcap : (decrementSeats s.db.trips trip_id).2 = 0
      · rw [confirmTxn_noSeats trip_id seat_id user_id s.db hcap] at hres
        exact absurd hres (by simp)
      · cases htaken : seatTaken s.db.bookings trip_id seat_id with
        | true =>
            rw [confirmTxn_seatBooked trip_id seat_id user_id s.db hcap htaken]
              at hres
            exact absurd hres (by simp)
        | false =>
            rw [confirmTxn_success trip_id seat_id user_id s.db hcap htaken]
              at hres ⊢
            injection hres with hbid
            exact ⟨hbid.symm, rfl⟩
    · rw [confirm_booking_badlock s trip_id seat_id tok user_id hl] at hres
      exact absurd hres (by simp)

/-- Fixture: a live lease on (1, 1) with token 5, remaining capacity, and
an existing booking row occupying (1, 1). -/
def conflictFixture : St :=
  { db := { trips := [{ id := 1, seats_available := 3 }]
            bookings := [{ id := 1, user_id := 2, trip_id := 1, seat_id := 1
                           status := "confirmed" }]
            payments := [], next_booking_id := 2, next_payment_id := 1 }
    redis := cadFixture }

theorem confirm_decrement_insert_atomic_witness :
    (confirm_booking 1 1 5 9 conflictFixture).1 = .errSeatBooked ∧
    (confirm_booking 1 1 5 9 conflictFixture).2.db = conflictFixture.db :=
  ⟨(confirm_decrement_insert_atomic conflictFixture 1 1 5 9).2.1 (by decide)
     (by decide) ⟨{ id := 1, seats_available := 3 }, by decide, by decide⟩,
   (confirm_decrement_insert_atomic conflictFixture 1 1 5 9).1
     ((confirm_decrement_insert_atomic conflictFixture 1 1 5 9).2.1 (by decide)
       (by decide) ⟨{ id := 1, seats_available := 3 }, by decide, by decide⟩)⟩

/-! ## Webhook idempotence lemmas -/

/-- A replayed event id short-circuits the handler: Ack, no state change. -/
theorem payment_webhook_with_replay
    (txn : String → Option String → Option String → Option Int → Db →
      Except String (Db × Option (Nat × Nat)))
    (req : WebhookReq) (s : St) (event_id : String)
    (hp : knownProvider req.provider = true) (hs : req.sig_valid = true)
    (he : extract_event_id req.payload = some event_id)
    (hproc : is_event_processed req.provider event_id s.redis = true) :
    payment_webhook_with txn req s = (.ack, s) := by
  simp only [payment_webhook_with, hp, hs, he, hproc]
  simp

/-- Processing a fresh event id always leaves its idempotency marker set,
whatever the transaction did. -/
theorem payment_webhook_with_marks
    (txn : String → Option String → Option String → Option Int → Db →
      Except String (Db × Option (Nat × Nat)))
    (req : WebhookReq) (s : St) (event_id : String)
    (hp : knownProvider req.provider = true) (hs : req.sig_valid = true)
    (he : extract_event_id req.payload = some event_id)
    (hproc : is_event_processed req.provider event_id s.redis = false) :
    is_event_processed req.provider event_id
      ((payment_webhook_with txn req s).2).redis = true := by
  have hm : mark_event_processed req.provider event_id s.redis =
      (true, { s.redis with
                 markers := (req.provider, event_id) :: s.redis.markers }) := by
    simp only [is_event_processed] at hproc
    simp [mark_event_processed, hproc]
    simp at hproc
    exact hproc
  simp only [payment_webhook_with, hp, hs, he, hproc]
  simp only [Bool.not_true, Bool.false_eq_true, if_false, hm, Bool.not_false,
    if_true]
  split
  · next db1 rel htxn =>
      split
      · simp [release_lock, is_event_processed]
      · simp [is_event_processed]
  · simp [is_event_processed]

/-! ## Claim C4: webhook idempotence per (provider, eventId) -/

/-- C4: delivering the identical event again after any first delivery
returns Ack with zero further state change — the marker is test-and-set
before the transaction and every redelivery short-circuits on it, so at
most one booking transition and one capacity adjustment can ever happen. -/
theorem webhook_idempotent (req : WebhookReq) (s : St)
    (hp : knownProvider req.provider = true) (hs : req.sig_valid = true)
    (he : (extract_event_id req.payload).isSome = true) :
    payment_webhook req ((payment_webhook req s).2) =
      (.ack, (payment_webhook req s).2) := by
  obtain ⟨event_id, he2⟩ := Option.isSome_iff_exists.mp he
  cases hproc : is_event_processed req.provider event_id s.redis with
  | true =>
      have h1 : payment_webhook req s = (.ack, s) :=
        payment_webhook_with_replay payment_txn req s event_id hp hs he2 hproc
      rw [h1]
      exact payment_webhook_with_replay payment_txn req s event_id hp hs he2
        hproc
  | false =>
      exact payment_webhook_with_replay payment_txn req
        ((payment_webhook req s).2) event_id hp hs he2
        (payment_webhook_with_marks payment_txn req s event_id hp hs he2 hproc)

/-- Fixture: the C2/C10 failing scenario — a confirmed booking matched by
an initiated payment for reference R1, zero seats left, a residual lease,
and an empty marker store. -/
def failedWebhookSt : St :=
  { db := { trips := [{ id := 1, seats_available := 0 }]
            bookings := [{ id := 1, user_id := 7, trip_id := 1, seat_id := 1
                           status := "confirmed" }]
            payments := [{ id := 1, booking_id := some 1, provider := "airtel"
                           provider_ref := some "R1", status := "initiated"
                           amount := 50 }]
            next_booking_id := 2, next_payment_id := 2 }
    redis := { locks := [{ trip_id := 1, seat_id := 1, token := 99
                           expires_at := 1000 }]
               markers := [], next_token := 100, now := 0 } }

/-- The failed-payment webhook delivery for that scenario. -/
def failedWebhookReq : WebhookReq :=
  { provider := "airtel", sig_valid := true
    payload := { id := some "E1"
                 data := some { transaction_id := some "R1"
                                status := some "failed", amount := some 50 } } }

theorem webhook_idempotent_witness :
    payment_webhook failedWebhookReq
        ((payment_webhook failedWebhookReq failedWebhookSt).2) =
      (.ack, (payment_webhook failedWebhookReq failedWebhookSt).2) :=
  webhook_idempotent failedWebhookReq failedWebhookSt (by decide) (by decide)
    (by decide)

/-! ## Claim C10: transaction failure after the marker is set -/

/-- C10: when the Ledger transaction inside the handler raises after the
ProcessedEventMarker was set, the handler returns 500 with the database
writes rolled back, the marker stays set, and every later redelivery of
the same (provider, eventId) returns Ack with no state change — the
event's transition is never applied. -/
theorem webhook_error_marker_persists (req : WebhookReq) (s : St)
    (msg : String) (s2 : St)
    (h : payment_webhook req s = (.err500 msg, s2)) :
    s2.db = s.db ∧
    (∃ event_id, extract_event_id req.payload = some event_id ∧
       is_event_processed req.provider event_id s2.redis = true) ∧
    payment_webhook req s2 = (.ack, s2) := by
  simp only [payment_webhook, payment_webhook_with] at h
  repeat' split at h
  all_goals try (injection h with h1 h2; exact WebhookResult.noConfusion h1)
  rename_i hkp hsig x event_id heq hproc hmk x2 msg0 htxn
  injection h with h1 h2
  have hp : knownProvider req.provider = true := by
    revert hkp; cases knownProvider req.provider <;> simp
  have hsv : req.sig_valid = true := by
    revert hsig; cases req.sig_valid <;> simp
  have hprocF : is_event_processed req.provider event_id s.redis = false := by
    revert hproc; cases is_event_processed req.provider event_id s.redis <;> simp
  have hcontF : s.redis.markers.contains (req.provider, event_id) = false := by
    simpa [is_event_processed] using hprocF
  have hmarker : is_event_processed req.provider event_id s2.redis = true := by
    rw [← h2]
    simp only [mark_event_processed, hcontF]
    simp [is_event_processed]
  refine ⟨by rw [← h2], ⟨event_id, heq, hmarker⟩, ?_⟩
  exact payment_webhook_with_replay payment_txn req s2 event_id hp hsv heq
    hmarker

/-- The state the failed-payment delivery leaves behind. -/
def failedWebhookOut : St :=
  (payment_webhook failedWebhookReq failedWebhookSt).2

theorem webhook_error_marker_persists_witness :
    failedWebhookOut.db = failedWebhookSt.db ∧
    payment_webhook failedWebhookReq failedWebhookOut =
      (.ack, failedWebhookOut) :=
  have h := webhook_error_marker_persists failedWebhookReq failedWebhookSt
    "NameError: name sa_update is not defined" failedWebhookOut (by decide)
  ⟨h.1, h.2.2⟩

/-! ## Claim C2: the failed-payment reconciliation path -/

/-- C2 (code bug): on a first-delivery failed event whose PaymentRecord
matches a booking, the handler is supposed to cancel the booking,
increment `seats_available`, best-effort release the residual lease and
return Ack. The shipped code instead evaluates the unimported name
`sa_update` and raises `NameError`: the call returns 500 with the Ledger
untouched and the residual lease still in place. With the missing import
supplied (`payment_webhook_fixed`), the very same delivery performs
exactly the claimed transition: booking cancelled, seats_available
restored from 0 to 1, lease released, Ack returned. -/
theorem failed_webhook_crashes_not_cancels :
    (payment_webhook failedWebhookReq failedWebhookSt).1 =
      .err500 "NameError: name sa_update is not defined" ∧
    (payment_webhook failedWebhookReq failedWebhookSt).2.db =
      failedWebhookSt.db ∧
    getLiveLock (payment_webhook failedWebhookReq failedWebhookSt).2.redis
      1 1 = some 99 ∧
    (payment_webhook_fixed failedWebhookReq failedWebhookSt).1 = .ack ∧
    (payment_webhook_fixed failedWebhookReq failedWebhookSt).2.db.bookings =
      [{ id := 1, user_id := 7, trip_id := 1, seat_id := 1
         status := "cancelled" }] ∧
    (payment_webhook_fixed failedWebhookReq failedWebhookSt).2.db.trips =
      [{ id := 1, seats_available := 1 }] ∧
    (payment_webhook_fixed failedWebhookReq failedWebhookSt).2.redis.locks =
      [] := by
  decide

/-! ## Claim C5: compensating increment must be status-gated -/

/-- A second, distinct failed event for the same provider reference. -/
def failedWebhookReq2 : WebhookReq :=
  { provider := "airtel", sig_valid := true
    payload := { id := some "E2"
                 data := some { transaction_id := some "R1"
                                status := some "failed", amount := some 50 } } }

/-- State after the first failed delivery under the intended
(import-fixed) code: booking cancelled, capacity back at C = 1. -/
def afterFirstFailed : St :=
  (payment_webhook_fixed failedWebhookReq failedWebhookSt).2

/-- C5 (code bug): the code gates the compensating increment only on
locating a booking, never on the booking's current status. Under the
intended (import-fixed) semantics, a second distinct failed event for the
same booking — already cancelled — increments `seats_available` again,
to 2 on a trip whose starting capacity C is 1; as shipped the branch
cannot even run (NameError, 500). -/
theorem failed_webhook_double_increment :
    afterFirstFailed.db.trips = [{ id := 1, seats_available := 1 }] ∧
    afterFirstFailed.db.bookings = [{ id := 1, user_id := 7, trip_id := 1
                                      seat_id := 1, status := "cancelled" }] ∧
    (payment_webhook_fixed failedWebhookReq2 afterFirstFailed).1 = .ack ∧
    (payment_webhook_fixed failedWebhookReq2 afterFirstFailed).2.db.trips =
      [{ id := 1, seats_available := 2 }] ∧
    (payment_webhook failedWebhookReq failedWebhookSt).1 =
      .err500 "NameError: name sa_update is not defined" := by
  decide

/-! ## Claim C3: rebooking a seat after failed-payment cancellation -/

/-- The second client's fresh lease acquisition on the cancelled seat. -/
def rebookLockRes : Option (Nat × Nat) × Redis :=
  lock_seat 1 1 60 afterFirstFailed.redis

/-- The second client's confirm attempt with its fresh token. -/
def rebookRes : ConfirmResult × St :=
  confirm_booking 1 1 100 8
    { db := afterFirstFailed.db, redis := rebookLockRes.2 }

/-- C3 (code bug): after the failed-payment cancellation (capacity back
to 1, seat lockable again), a second client acquires a fresh lease — but
its confirm hits `uq_trip_seat`, which covers the never-deleted cancelled
booking row, and returns Conflict ("Seat already booked") instead of
creating a new confirmed booking. -/
theorem rebook_after_cancel_conflicts :
    rebookLockRes.1 = some (100, 60) ∧
    rebookRes.1 = .errSeatBooked ∧
    rebookRes.2.db = afterFirstFailed.db := by
  decide

/-! ## Claim C1: the confirm race -/

/-- At most one booking with status confirmed or paid per (trip, seat). -/
def atMostOneActive (db : Db) : Prop :=
  ∀ b1 ∈ db.bookings, ∀ b2 ∈ db.bookings,
    b1.trip_id = b2.trip_id → b1.seat_id = b2.seat_id →
    (b1.status = "confirmed" ∨ b1.status = "paid") →
    (b2.status = "confirmed" ∨ b2.status = "paid") → b1 = b2

/-- At most one booking row of any status per (trip, seat) — what
`uq_trip_seat` guarantees of any reachable database. -/
def rowUniq (bookings : List Booking) : Prop :=
  ∀ b1 ∈ bookings, ∀ b2 ∈ bookings,
    b1.trip_id = b2.trip_id → b1.seat_id = b2.seat_id → b1 = b2

theorem rowUniq_append (bookings : List Booking) (b : Booking)
    (h4 : rowUniq bookings)
    (hfree : seatTaken bookings b.trip_id b.seat_id = false) :
    rowUniq (bookings ++ [b]) := by
  have hnotin : ∀ x ∈ bookings,
      ¬(x.trip_id = b.trip_id ∧ x.seat_id = b.seat_id) := by
    intro x hx hxeq
    simp only [seatTaken] at hfree
    simp at hfree
    exact hfree x hx hxeq.1 hxeq.2
  intro b1 hb1 b2 hb2 ht hs
  rcases List.mem_append.mp hb1 with hb1 | hb1 <;>
    rcases List.mem_append.mp hb2 with hb2 | hb2
  · exact h4 b1 hb1 b2 hb2 ht hs
  · have hb2e : b2 = b := by simpa using hb2
    exact absurd ⟨by rw [ht, hb2e], by rw [hs, hb2e]⟩ (hnotin b1 hb1)
  · have hb1e : b1 = b := by simpa using hb1
    exact absurd ⟨by rw [← ht, hb1e], by rw [← hs, hb1e]⟩ (hnotin b2 hb2)
  · have hb1e : b1 = b := by simpa using hb1
    have hb2e : b2 = b := by simpa using hb2
    rw [hb1e, hb2e]

theorem atMostOneActive_of_rowUniq (db : Db) (h : rowUniq db.bookings) :
    atMostOneActive db :=
  fun b1 hb1 b2 hb2 ht hs _ _ => h b1 hb1 b2 hb2 ht hs

/-- The per-caller control point of a racing `confirm_booking` call. A
call is two atomic steps on shared state — the Redis compare-and-delete,
then the Ledger transaction; a caller whose consume fails returns at once
(it touches no further shared state), so its rejection is folded into the
first step. -/
inductive CallPhase where
  | ready
  | locked
  | finished (res : ConfirmResult)
deriving DecidableEq, Repr

/-- N racing `confirm` callers over the shared state. -/
structure RaceSys (n : Nat) where
  st : St
  ph : Fin n → CallPhase

/-- One scheduler step: caller `i` performs its next atomic action of
`confirm_booking` (the same `validate_and_consume_lock` and `confirmTxn`
the sequential definition uses). -/
def raceStep (trip_id seat_id tok user_id : Nat) {n : Nat}
    (sys : RaceSys n) (i : Fin n) : RaceSys n :=
  match sys.ph i with
  | .ready =>
      let c := validate_and_consume_lock trip_id seat_id tok sys.st.redis
      if c.1 then
        { st := { sys.st with redis := c.2 }
          ph := fun j => if j = i then .locked else sys.ph j }
      else
        { st := { sys.st with redis := c.2 }
          ph := fun j => if j = i then .finished .errInvalidLock
                         else sys.ph j }
  | .locked =>
      let t := confirmTxn trip_id seat_id user_id sys.st.db
      { st := { sys.st with db := t.2 }
        ph := fun j => if j = i then .finished t.1 else sys.ph j }
  | .finished _ => sys

/-- Run a schedule: an arbitrary interleaving of the callers' steps. -/
def raceRun (trip_id seat_id tok user_id : Nat) {n : Nat}
    (init : RaceSys n) (sched : List (Fin n)) : RaceSys n :=
  sched.foldl (raceStep trip_id seat_id tok user_id) init

/-- All callers start ready, over the shared initial state. -/
def raceInit (n : Nat) (s0 : St) : RaceSys n :=
  { st := s0, ph := fun _ => .ready }

/-- Reachable-state invariant of the race: either nobody has consumed the
lease yet, or exactly one caller holds it (transaction pending), or that
caller has committed; everyone else is untouched or rejected. -/
def RaceInv (trip_id seat_id tok user_id : Nat) (s0 : St) {n : Nat}
    (sys : RaceSys n) : Prop :=
  (sys.st.db = s0.db ∧ getLiveLock sys.st.redis trip_id seat_id = some tok ∧
     ∀ j, sys.ph j = .ready)
  ∨ (sys.st.db = s0.db ∧ getLiveLock sys.st.redis trip_id seat_id = none ∧
     ∃ i, sys.ph i = .locked ∧ ∀ j, j ≠ i →
       (sys.ph j = .ready ∨ sys.ph j = .finished .errInvalidLock))
  ∨ (sys.st.db = (confirmTxn trip_id seat_id user_id s0.db).2 ∧
     getLiveLock sys.st.redis trip_id seat_id = none ∧
     ∃ i, sys.ph i = .finished (.booked s0.db.next_booking_id) ∧
       ∀ j, j ≠ i →
         (sys.ph j = .ready ∨ sys.ph j = .finished .errInvalidLock))

theorem decrement_rowcount_ne_zero (trips : List Trip) (trip_id : Nat)
    (h : ∃ t ∈ trips, t.id = trip_id ∧ 0 < t.seats_available) :
    (decrementSeats trips trip_id).2 ≠ 0 := by
  simp only [decrementSeats]
  have hpos : 0 < trips.countP
      (fun t => t.id == trip_id && decide (0 < t.seats_available)) := by
    rw [List.countP_pos_iff]
    obtain ⟨t, ht, hid, hp⟩ := h
    exact ⟨t, ht, by simp [hid, hp]⟩
  omega

/-- Every scheduler step preserves the race invariant. -/
theorem raceStep_inv (trip_id seat_id tok user_id : Nat) (s0 : St) {n : Nat}
    (hcap : (decrementSeats s0.db.trips trip_id).2 ≠ 0)
    (htaken : seatTaken s0.db.bookings trip_id seat_id = false)
    (sys : RaceSys n) (k : Fin n)
    (hinv : RaceInv trip_id seat_id tok user_id s0 sys) :
    RaceInv trip_id seat_id tok user_id s0
      (raceStep trip_id seat_id tok user_id sys k) := by
  unfold RaceInv at hinv ⊢
  rcases hinv with ⟨hdb, hlock, hready⟩ | ⟨hdb, hlock, i, hi, hoth⟩ |
    ⟨hdb, hlock, i, hi, hoth⟩
  · -- nobody has consumed the lease; caller k consumes it
    have hph := hready k
    have hc := consume_hit sys.st.redis trip_id seat_id tok hlock
    have hstep : raceStep trip_id seat_id tok user_id sys k =
        { st := { sys.st with
                    redis := { sys.st.redis with
                                 locks := delLockKey sys.st.redis.locks
                                   trip_id seat_id } }
          ph := fun j => if j = k then .locked else sys.ph j } := by
      simp [raceStep, hph, hc]
    rw [hstep]
    right; left
    refine ⟨hdb, getLiveLock_eq_none_of_del _ sys.st.redis.locks _ _ rfl,
            k, by simp, ?_⟩
    intro j hj
    simp only [hj, if_false]
    exact Or.inl (hready j)
  · -- caller i holds the consumed lease, transaction pending
    cases hph : sys.ph k with
    | ready =>
        have hc := consume_miss sys.st.redis trip_id seat_id tok
          (by rw [hlock]; simp)
        have hstep : raceStep trip_id seat_id tok user_id sys k =
            { st := sys.st
              ph := fun j => if j = k then .finished .errInvalidLock
                             else sys.ph j } := by
          simp [raceStep, hph, hc]
        rw [hstep]
        right; left
        have hki : k ≠ i := by
          intro he; rw [he, hi] at hph; exact CallPhase.noConfusion hph
        refine ⟨hdb, hlock, i, ?_, ?_⟩
        · simp only [Ne.symm hki, if_false]
          exact hi
        · intro j hj
          by_cases hjk : j = k
          · subst hjk; simp
          · simp only [hjk, if_false]
            exact hoth j hj
    | locked =>
        have hk : k = i := by
          by_contra hne
          rcases hoth k hne with h | h <;> rw [hph] at h <;>
            exact CallPhase.noConfusion h
        subst hk
        have ht := confirmTxn_success trip_id seat_id user_id s0.db hcap htaken
        have hstep : raceStep trip_id seat_id tok user_id sys k =
            { st := { sys.st with
                        db := (confirmTxn trip_id seat_id user_id sys.st.db).2 }
              ph := fun j =>
                if j = k then
                  .finished (confirmTxn trip_id seat_id user_id sys.st.db).1
                else sys.ph j } := by
          simp [raceStep, hph]
        rw [hstep, hdb]
        right; right
        refine ⟨rfl, hlock, k, ?_, ?_⟩
        · simp [ht]
        · intro j hj
          simp only [hj, if_false]
          exact hoth j hj
    | finished r =>
        have hstep : raceStep trip_id seat_id tok user_id sys k = sys := by
          simp [raceStep, hph]
        rw [hstep]
        right; left
        exact ⟨hdb, hlock, i, hi, hoth⟩
  · -- caller i has committed its booking
    cases hph : sys.ph k with
    | ready =>
        have hc := consume_miss sys.st.redis trip_id seat_id tok
          (by rw [hlock]; simp)
        have hstep : raceStep trip_id seat_id tok user_id sys k =
            { st := sys.st
              ph := fun j => if j = k then .finished .errInvalidLock
                             else sys.ph j } := by
          simp [raceStep, hph, hc]
        rw [hstep]
        right; right
        have hki : k ≠ i := by
          intro he; rw [he, hi] at hph; exact CallPhase.noConfusion hph
        refine ⟨hdb, hlock, i, ?_, ?_⟩
        · simp only [Ne.symm hki, if_false]
          exact hi
        · intro j hj
          by_cases hjk : j = k
          · subst hjk; simp
          · simp only [hjk, if_false]
            exact hoth j hj
    | locked =>
        exfalso
        by_cases hk : k = i
        · rw [hk, hi] at hph; exact CallPhase.noConfusion hph
        · rcases hoth k hk with h | h <;> rw [hph] at h <;>
            exact CallPhase.noConfusion h
    | finished r =>
        have hstep : raceStep trip_id seat_id tok user_id sys k = sys := by
          simp [raceStep, hph]
        rw [hstep]
        right; right
        exact ⟨hdb, hlock, i, hi, hoth⟩

/-- The invariant holds after any schedule. -/
theorem raceRun_inv (trip_id seat_id tok user_id : Nat) (s0 : St) {n : Nat}
    (hcap : (decrementSeats s0.db.trips trip_id).2 ≠ 0)
    (htaken : seatTaken s0.db.bookings trip_id seat_id = false)
    (sched : List (Fin n)) (sys : RaceSys n)
    (hinv : RaceInv trip_id seat_id tok user_id s0 sys) :
    RaceInv trip_id seat_id tok user_id s0
      (raceRun trip_id seat_id tok user_id sys sched) := by
  induction sched generalizing sys with
  | nil => exact hinv
  | cons a l ih =>
      exact ih (raceStep trip_id seat_id tok user_id sys a)
        (raceStep_inv trip_id seat_id tok user_id s0 hcap htaken sys a hinv)

/-- C1: under any interleaving of any number of racing `confirm` calls
that share the one valid lease token — from a state with capacity, a free
seat and a `uq_trip_seat`-consistent bookings table — every intermediate
state has at most one confirmed-or-paid booking per (trip, seat), and once
every caller has completed, exactly one holds a booking (created with
status confirmed) while every other caller was rejected with the
invalid-or-expired-lock Conflict. -/
theorem confirm_race_exactly_one (trip_id seat_id tok user_id n : Nat)
    (s0 : St) (sched : List (Fin n)) (hn : 0 < n)
    (h1 : getLiveLock s0.redis trip_id seat_id = some tok)
    (h2 : ∃ t ∈ s0.db.trips, t.id = trip_id ∧ 0 < t.seats_available)
    (h3 : seatTaken s0.db.bookings trip_id seat_id = false)
    (h4 : rowUniq s0.db.bookings) :
    (∀ pre : List (Fin n),
       atMostOneActive
         (raceRun trip_id seat_id tok user_id (raceInit n s0) pre).st.db) ∧
    ((∀ j, ∃ r, (raceRun trip_id seat_id tok user_id (raceInit n s0)
        sched).ph j = .finished r) →
      ∃ i,
        (raceRun trip_id seat_id tok user_id (raceInit n s0) sched).ph i =
          .finished (.booked s0.db.next_booking_id) ∧
        (∀ j, j ≠ i →
          (raceRun trip_id seat_id tok user_id (raceInit n s0) sched).ph j =
            .finished .errInvalidLock) ∧
        (raceRun trip_id seat_id tok user_id (raceInit n s0) sched).st.db =
          (confirmTxn trip_id seat_id user_id s0.db).2) := by
  have hcap := decrement_rowcount_ne_zero s0.db.trips trip_id h2
  have hinit : RaceInv trip_id seat_id tok user_id s0 (raceInit n s0) :=
    Or.inl ⟨rfl, h1, fun _ => rfl⟩
  constructor
  · intro pre
    have hinv := raceRun_inv trip_id seat_id tok user_id s0 hcap h3 pre
      (raceInit n s0) hinit
    rcases hinv with ⟨hdb, _, _⟩ | ⟨hdb, _, _⟩ | ⟨hdb, _, _⟩
    · rw [hdb]
      exact atMostOneActive_of_rowUniq s0.db h4
    · rw [hdb]
      exact atMostOneActive_of_rowUniq s0.db h4
    · rw [hdb, confirmTxn_success trip_id seat_id user_id s0.db hcap h3]
      exact atMostOneActive_of_rowUniq _ (rowUniq_append s0.db.bookings _ h4 h3)
  · intro hallfin
    have hinv := raceRun_inv trip_id seat_id tok user_id s0 hcap h3 sched
      (raceInit n s0) hinit
    rcases hinv with ⟨_, _, hready⟩ | ⟨_, _, i, hi, _⟩ | ⟨hdb, _, i, hi, hoth⟩
    · obtain ⟨r, hr⟩ := hallfin ⟨0, hn⟩
      rw [hready ⟨0, hn⟩] at hr
      exact CallPhase.noConfusion hr
    · obtain ⟨r, hr⟩ := hallfin i
      rw [hi] at hr
      exact CallPhase.noConfusion hr
    · refine ⟨i, hi, ?_, hdb⟩
      intro j hj
      rcases hoth j hj with h | h
      · obtain ⟨r, hr⟩ := hallfin j
        rw [h] at hr
        exact CallPhase.noConfusion hr
      · exact h

/-- Fixture: one seat of capacity on trip 1, no bookings, and the live
lease of `cadFixture` (token 5) on (1, 1). -/
def raceFixture : St :=
  { db := { trips := [{ id := 1, seats_available := 1 }], bookings := []
            payments := [], next_booking_id := 1, next_payment_id := 1 }
    redis := cadFixture }

theorem confirm_race_exactly_one_witness :
    getLiveLock raceFixture.redis 1 1 = some 5 ∧
    ((∀ pre : List (Fin 2),
        atMostOneActive
          (raceRun 1 1 5 9 (raceInit 2 raceFixture) pre).st.db) ∧
     ((∀ j, ∃ r, (raceRun 1 1 5 9 (raceInit 2 raceFixture)
         [0, 0, 1]).ph j = .finished r) →
       ∃ i,
         (raceRun 1 1 5 9 (raceInit 2 raceFixture) [0, 0, 1]).ph i =
           .finished (.booked raceFixture.db.next_booking_id) ∧
         (∀ j, j ≠ i →
           (raceRun 1 1 5 9 (raceInit 2 raceFixture) [0, 0, 1]).ph j =
             .finished .errInvalidLock) ∧
         (raceRun 1 1 5 9 (raceInit 2 raceFixture) [0, 0, 1]).st.db =
           (confirmTxn 1 1 9 raceFixture.db).2)) :=
  ⟨by decide,
   confirm_race_exactly_one 1 1 5 9 2 raceFixture [0, 0, 1] (by decide)
     (by decide) (by decide) (by decide)
     (fun b1 hb1 => absurd hb1 (List.not_mem_nil b1))⟩

end IBBS
